import Mathlib

/-!
Shallow embedding of `src/dremio/wrapper.py` (class `DremioWrapper`), a
synchronous HTTP client for a Dremio REST API.  HTTP interaction is modelled
by an environment oracle `Env : Nat → Response` giving the response to the
n-th HTTP request issued (counted globally), and every operation is a
state-passing function over the trace of requests issued so far.  Python
exceptions are modelled by an error sum: the library's `DremioException`,
Python's `AssertionError` (the `assert` in `create_element`) and Python's
`TypeError` (string concatenation with `None` in `get_run_status` when
`run_sql` passes `job = None`).
-/

deriving instance DecidableEq for Except

namespace Dremio

/-- Modelled from the spec: `dremio/exceptions.py` is not present under
`src/`; the spec describes "a single error kind (parameterized by
message/cause)".  `DremioException` carries the response text passed at
each raise site in `wrapper.py`. -/
structure DremioException where
  msg : String
deriving DecidableEq, Repr

/-- A Python-level exception: the library error, or one of the two builtin
exceptions reachable in `wrapper.py`. -/
inductive PyError where
  | dremio (e : DremioException)
  | assertionError
  | typeError
deriving DecidableEq, Repr

/-- An HTTP response as observed by the code: its status, the JSON fields
the wrapper reads (`token`, `id`, `jobState`, `version`), and `response.text`. -/
structure Response where
  status : Nat
  token : Option String := none
  id : Option String := none
  jobState : Option String := none
  version : Option String := none
  text : String := ""
deriving DecidableEq, Repr

instance : Inhabited Response := ⟨{ status := 0 }⟩

/-- Body of the catalog-create POST in `create_element`: a flat name for a
space, a segment list for a folder. -/
inductive CatalogBody where
  | space (name : String)
  | folder (path : List String)
deriving DecidableEq, Repr

/-- The JSON payload of the PDS-refresh POST (`entityType`, `type` and
`format` are the constants `'dataset'`, `'PHYSICAL_DATASET'`, `'Parquet'`
and are not carried). -/
structure RefreshPayload where
  id : String
  path : List String
deriving DecidableEq, Repr

/-- One HTTP request as issued by the wrapper: which endpoint, the token in
the `Authorization` header (absent for login), and the request-specific data. -/
inductive Request where
  | login (userName password : String)
  | catalogPost (token : String) (data : CatalogBody)
  | catalogDelete (token : String) (elementId : String)
  | jobGet (token : String) (jobId : String)
  | sqlPost (token : String) (sql : String)
  | byPathGet (token : String) (path : String)
  | wikiGet (token : String) (elementId : String)
  | wikiPost (token : String) (elementId : String) (text : String)
      (version : Option String)
  | refreshPost (token : String) (elementId : String) (payload : RefreshPayload)
deriving DecidableEq, Repr

/-- The token carried in a request's `Authorization` header. -/
def Request.tokenUsed : Request → Option String
  | .login _ _ => none
  | .catalogPost t _ => some t
  | .catalogDelete t _ => some t
  | .jobGet t _ => some t
  | .sqlPost t _ => some t
  | .byPathGet t _ => some t
  | .wikiGet t _ => some t
  | .wikiPost t _ _ _ => some t
  | .refreshPost t _ _ => some t

/-- The environment oracle: the response the server gives to the n-th HTTP
request issued (0-based, counted over the whole trace). -/
def Env : Type := Nat → Response

/-- A stateful, fallible action: from the trace of requests issued so far
to a result (or raised exception) together with the extended trace. -/
def Act (α : Type) : Type := List Request → Except PyError α × List Request

/-- Return. -/
def Act.pure (a : α) : Act α := fun tr => (.ok a, tr)

/-- Raise a Python exception. -/
def Act.throw (e : PyError) : Act α := fun tr => (.error e, tr)

/-- Sequencing; an exception propagates, keeping the trace at the raise point. -/
def Act.bind (x : Act α) (f : α → Act β) : Act β := fun tr =>
  match x tr with
  | (.ok a, tr') => f a tr'
  | (.error e, tr') => (.error e, tr')

/-- Issue one HTTP request: record it and receive the oracle's response for
the current position. -/
def Act.issue (env : Env) (r : Request) : Act Response := fun tr =>
  (.ok (env tr.length), tr ++ [r])

/-- Python `except DremioException:` — only the library error is caught. -/
def Act.catchDremio (x : Act α) (handler : Act α) : Act α := fun tr =>
  match x tr with
  | (.error (.dremio _), tr') => handler tr'
  | r => r

/-- Python truthiness of an optional string (`None` and `''` are falsy). -/
def truthy : Option String → Bool
  | none => false
  | some s => s ≠ ""

/-- `result in ['COMPLETED', 'CANCELED', 'FAILED']` with `result` possibly
`None` (line 128 / 136 of `wrapper.py`). -/
def isTerminal : Option String → Bool
  | none => false
  | some s => s = "COMPLETED" || s = "CANCELED" || s = "FAILED"

/-- `isPrefixChars pat l` decides whether `pat` is a prefix of `l`. -/
def isPrefixChars : List Char → List Char → Bool
  | [], _ => true
  | _ :: _, [] => false
  | a :: as, b :: bs => a = b && isPrefixChars as bs

/-- `containsChars pat l` decides whether `pat` occurs contiguously in `l`
(Python's `pat in l`; the empty pattern occurs in everything). -/
def containsChars (pat : List Char) : List Char → Bool
  | [] => isPrefixChars pat []
  | x :: xs => isPrefixChars pat (x :: xs) || containsChars pat xs

/-- Python `sub in s` (substring containment), as used on lines 258 and 275. -/
def strContains (s sub : String) : Bool :=
  containsChars sub.data s.data

/-- Python `s.split(c)` for a one-character separator, character by
character (`''` splits to `['']`, a trailing separator yields a trailing
`''`), as `str.split` behaves on lines 73 and 292. -/
def pySplit (c : Char) : List Char → List String
  | [] => [""]
  | x :: xs =>
    if x = c then "" :: pySplit c xs
    else
      match pySplit c xs with
      | [] => [String.mk [x]]
      | r :: rs => String.mk (x :: r.data) :: rs

/-- Python `s.split('/')`. -/
def splitSlash (s : String) : List String := pySplit '/' s.data

/-- `path.replace('.', '/').replace('"', '')` (lines 178 and 272): both
patterns are single characters, so `str.replace` is a character map
followed by dropping every `'"'`. -/
def normalize (path : String) : String :=
  String.mk ((path.data.map fun ch => if ch = '.' then '/' else ch).filter
    fun ch => ch ≠ '"')

/-- Whether a raised exception is the library's own error kind. -/
def PyError.isDremio : PyError → Bool
  | .dremio _ => true
  | _ => false

/-- Connection configuration held by the `DremioWrapper` instance (the URLs
are determined by `host` and are abstracted into the `Request` constructors). -/
structure DremioWrapper where
  host : String
  username : String
  password : String

/-- `get_token` (lines 30-49): POST credentials to the login endpoint; on
HTTP 200 read `token` from the body; return it if truthy, else raise
`DremioException(response.text)`. -/
def DremioWrapper.get_token (w : DremioWrapper) (env : Env) : Act String :=
  Act.bind (Act.issue env (.login w.username w.password)) fun response => fun tr =>
    let token : Option String :=
      if response.status = 200 then response.token else none
    if truthy token then (.ok (token.getD ""), tr)
    else (.error (.dremio ⟨response.text⟩), tr)

/-- `create_element` (lines 51-88): assert the element type, get a token,
POST the space/folder body; `id` on 200, the `'already exists'` sentinel on
409, raise on anything else (or on a 200 whose body lacks a truthy `id`). -/
def DremioWrapper.create_element (w : DremioWrapper) (env : Env)
    (element_type element_name_or_path : String) : Act String := fun tr =>
  if element_type = "folder" ∨ element_type = "space" then
    (Act.bind (w.get_token env) fun token =>
      Act.bind (Act.issue env (.catalogPost token
        (if element_type = "space" then .space element_name_or_path
         else .folder (splitSlash element_name_or_path)))) fun response => fun tr =>
        let result : Option String :=
          if response.status = 200 then response.id
          else if response.status = 409 then some "already exists"
          else none
        if truthy result then (.ok (result.getD ""), tr)
        else (.error (.dremio ⟨response.text⟩), tr)) tr
  else (.error .assertionError, tr)

/-- `delete_element` (lines 90-112): DELETE by id; `'removed'` on 204, else
raise `DremioException(response.text)`. -/
def DremioWrapper.delete_element (w : DremioWrapper) (env : Env)
    (element_id : String) : Act String :=
  Act.bind (w.get_token env) fun token =>
  Act.bind (Act.issue env (.catalogDelete token element_id)) fun response => fun tr =>
    if response.status = 204 then (.ok "removed", tr)
    else (.error (.dremio ⟨response.text⟩), tr)

/-- The polling loop of `get_run_status` (lines 126-137), with `max_tries`
as fuel.  Each iteration GETs the job status (raising `TypeError` first if
the job id is `None`, from `self._url_jobstatus + id`), overwrites `result`
with the body's `jobState` on a 200, and loops while `result` is not
terminal.  Returns the final `result` and the last response seen. -/
def jobPoll (env : Env) (token : String) (jobId : Option String) :
    Nat → Option String → Option Response → Act (Option String × Option Response)
  | 0, result, lastResp => fun tr => (.ok (result, lastResp), tr)
  | fuel + 1, result, lastResp => fun tr =>
    if isTerminal result then (.ok (result, lastResp), tr)
    else
      match jobId with
      | none => (.error .typeError, tr)
      | some jid =>
        let response := env tr.length
        let result' := if response.status = 200 then response.jobState else result
        jobPoll env token jobId fuel result' (some response)
          (tr ++ [Request.jobGet token jid])

/-- `get_run_status` (lines 114-141): get a token once, poll up to 300
times, then return `result` if truthy, else raise
`DremioException(response.text)` for the last response. -/
def DremioWrapper.get_run_status (w : DremioWrapper) (env : Env)
    (id : Option String) : Act String :=
  Act.bind (w.get_token env) fun token =>
  Act.bind (jobPoll env token id 300 none none) fun pr => fun tr =>
    if truthy pr.1 then (.ok (pr.1.getD ""), tr)
    else (.error (.dremio ⟨((pr.2).getD default).text⟩), tr)

/-- `run_sql` (lines 143-170): POST the SQL; on 200 read the job `id` and
delegate to `get_run_status`; return its result if truthy, else raise
`DremioException(response.text)` for the submission response. -/
def DremioWrapper.run_sql (w : DremioWrapper) (env : Env)
    (command : String) : Act String :=
  Act.bind (w.get_token env) fun token =>
  Act.bind (Act.issue env (.sqlPost token command)) fun response =>
    if response.status = 200 then
      Act.bind (w.get_run_status env response.id) fun result => fun tr =>
        if result ≠ "" then (.ok result, tr)
        else (.error (.dremio ⟨response.text⟩), tr)
    else Act.throw (.dremio ⟨response.text⟩)

/-- The polling loop of `get_element_id` (lines 185-196), with `max_tries`
as fuel: GET the lookup-by-path endpoint, set `result` from the body's `id`
on a 200, loop while `result` is falsy. -/
def idPoll (env : Env) (token path : String) :
    Nat → Option String → Option Response → Act (Option String × Option Response)
  | 0, result, lastResp => fun tr => (.ok (result, lastResp), tr)
  | fuel + 1, result, lastResp => fun tr =>
    if truthy result then (.ok (result, lastResp), tr)
    else
      let response := env tr.length
      let result' := if response.status = 200 then response.id else result
      idPoll env token path fuel result' (some response)
        (tr ++ [Request.byPathGet token path])

/-- `get_element_id` (lines 172-200): normalize the path, get a token once,
poll up to 10 times, return the truthy `result` or raise
`DremioException(response.text)` for the last response. -/
def DremioWrapper.get_element_id (w : DremioWrapper) (env : Env)
    (path : String) : Act String :=
  let path := normalize path
  Act.bind (w.get_token env) fun token =>
  Act.bind (idPoll env token path 10 none none) fun pr => fun tr =>
    if truthy pr.1 then (.ok (pr.1.getD ""), tr)
    else (.error (.dremio ⟨((pr.2).getD default).text⟩), tr)

/-- `create_documentation` (lines 202-243): one token; GET the wiki to read
`version` (only on a 200); POST the text, with the `version` field present
iff `version is not None`; `'ok'` on 200, else raise. -/
def DremioWrapper.create_documentation (w : DremioWrapper) (env : Env)
    (element_id text : String) : Act String :=
  Act.bind (w.get_token env) fun token =>
  Act.bind (Act.issue env (.wikiGet token element_id)) fun response =>
    let version : Option String :=
      if response.status = 200 then response.version else none
    Act.bind (Act.issue env (.wikiPost token element_id text version)) fun response2 =>
      fun tr =>
        if response2.status = 200 then (.ok "ok", tr)
        else (.error (.dremio ⟨response2.text⟩), tr)

/-- `create_or_replace_vds` (lines 245-264): run
`CREATE OR REPLACE VDS <path> AS <query>`; raise `DremioException(result)` if
`'FAILED' in result`; otherwise, if `docs` is truthy, look up the element id
and attach the documentation. -/
def DremioWrapper.create_or_replace_vds (w : DremioWrapper) (env : Env)
    (vds_path query : String) (docs : Option String) : Act Unit :=
  Act.bind (w.run_sql env
      ("CREATE OR REPLACE VDS " ++ vds_path ++ " AS" ++ " " ++ query)) fun result =>
    if strContains result "FAILED" then Act.throw (.dremio ⟨result⟩)
    else if truthy docs then
      Act.bind (w.get_element_id env vds_path) fun eid =>
      Act.bind (w.create_documentation env eid (docs.getD "")) fun _ =>
      Act.pure ()
    else Act.pure ()

/-- `refresh_parquet_pds` (lines 266-315): normalize the path; look up the
existing id; if the id does NOT contain the path as a substring, delete the
element (ignoring a `DremioException`) and look up a fresh id, else reuse the
id; then POST the Parquet refresh payload under the resolved id, returning
the `id` field of the response body on 200, raising otherwise. -/
def DremioWrapper.refresh_parquet_pds (w : DremioWrapper) (env : Env)
    (pds_path : String) : Act (Option String) :=
  let pds_path := normalize pds_path
  Act.bind (w.get_element_id env pds_path) fun element_id_antigo =>
  Act.bind
    (if ¬ strContains element_id_antigo pds_path then
      Act.bind
        (Act.catchDremio
          (Act.bind (w.delete_element env element_id_antigo) fun _ => Act.pure ())
          (Act.pure ())) fun _ =>
        w.get_element_id env pds_path
     else Act.pure element_id_antigo) fun element_id =>
  Act.bind (w.get_token env) fun token =>
  Act.bind (Act.issue env
      (.refreshPost token element_id ⟨element_id, splitSlash pds_path⟩)) fun response =>
    fun tr =>
      if response.status = 200 then (.ok response.id, tr)
      else (.error (.dremio ⟨response.text⟩), tr)

/-! ### Concrete fixtures for witnesses and counterexamples -/

/-- A concrete client instance. -/
def wTest : DremioWrapper := ⟨"http://dremio.example", "u", "p"⟩

/-- An environment that never answers usefully. -/
def envEmpty : Env := fun _ => default

/-- A successful login response carrying token `t`. -/
def loginResp (t : String) : Response := { status := 200, token := some t }

/-- Environment for the C7 witness: login yields token `T`, the catalog
POST answers 200 with id `ID1`. -/
def envC7 : Env := fun n => if n = 0 then loginResp "T" else { status := 200, id := some "ID1" }

/-- Environment for the C8 witness: login yields `T`, the wiki GET is a 200
carrying version `5`, the wiki POST answers 200. -/
def envC8 : Env := fun n =>
  if n = 0 then loginResp "T"
  else if n = 1 then { status := 200, version := some "5" }
  else { status := 200 }

/-- Environment for the C10 witness: login yields `T`, the wiki GET is a
404 (whose body even carries a version, which must be ignored), the POST
answers 200. -/
def envC10 : Env := fun n =>
  if n = 0 then loginResp "T"
  else if n = 1 then { status := 404, version := some "9", text := "not found" }
  else { status := 200 }

/-- Environment under which the submitted job ends in state `CANCELED`:
login (`T1`), SQL submission (job `job1`), login again (`T2`), then the
job-status GET reports `CANCELED`. -/
def envC1 : Env := fun n =>
  if n = 0 then loginResp "T1"
  else if n = 1 then { status := 200, id := some "job1" }
  else if n = 2 then loginResp "T2"
  else { status := 200, jobState := some "CANCELED" }

/-- Environment under which the job never leaves the non-terminal state
`RUNNING`: every job-status GET is an HTTP 200 with `jobState = 'RUNNING'`. -/
def envRun : Env := fun n =>
  if n = 0 then loginResp "T" else { status := 200, jobState := some "RUNNING" }

/-- Environment for the C3 witness (reuse branch): login `T1`, the lookup
returns the ID `dremio:/source/folder/table` — which contains the
normalized path — then login `T2` and a 200 refresh response with id
`NEWID`. -/
def envC3 : Env := fun n =>
  if n = 0 then loginResp "T1"
  else if n = 1 then { status := 200, id := some "dremio:/source/folder/table" }
  else if n = 2 then loginResp "T2"
  else { status := 200, id := some "NEWID" }

/-- Environment for the C6 witness: login yields `T`, the first four
lookups are 200s without an `id`, the fifth lookup carries id `EID`. -/
def envC6 : Env := fun n =>
  if n = 0 then loginResp "T"
  else if n = 5 then { status := 200, id := some "EID" }
  else { status := 200, text := "no id yet" }

/-- An environment whose every response is an authentication failure. -/
def envFail : Env := fun _ => { status := 500, text := "boom" }

/-- A lookup response "yields an ID" when it is an HTTP 200 whose body has
a truthy `id` (line 193-194: the body is only read on a 200, and a falsy
`id` keeps the loop going). -/
def yieldsId (r : Response) : Bool := r.status = 200 && truthy r.id

/-! ### Basic lemmas about the embedding -/

/-- Unfolding `Act.bind` when the first action succeeds. -/
theorem Act.bind_ok {x : Act α} {f : α → Act β} {tr tr' : List Request} {a : α}
    (h : x tr = (.ok a, tr')) : Act.bind x f tr = f a tr' := by
  simp [Act.bind, h]

/-- Unfolding `Act.bind` when the first action raises. -/
theorem Act.bind_err {x : Act α} {f : α → Act β} {tr tr' : List Request} {e : PyError}
    (h : x tr = (.error e, tr')) : Act.bind x f tr = (.error e, tr') := by
  simp [Act.bind, h]

/-- `get_token` when the login response is an HTTP 200 with a non-empty
token: returns the token and appends exactly the login request. -/
theorem get_token_ok (w : DremioWrapper) {env : Env} {tr : List Request} {t : String}
    (hst : (env tr.length).status = 200) (htok : (env tr.length).token = some t)
    (hne : t ≠ "") :
    w.get_token env tr = (.ok t, tr ++ [.login w.username w.password]) := by
  simp [DremioWrapper.get_token, Act.bind, Act.issue, hst, htok, truthy, hne]

/-- `get_token` always appends exactly the login request, whatever the outcome. -/
theorem get_token_trace (w : DremioWrapper) (env : Env) (tr : List Request) :
    (w.get_token env tr).2 = tr ++ [.login w.username w.password] := by
  simp only [DremioWrapper.get_token, Act.bind, Act.issue]
  split <;> split <;> simp

/-! ### C9 -/

/-- C9: for every `element_type` outside `{'folder', 'space'}`,
`create_element` fails the `assert` on line 58 before issuing any HTTP
request (the trace is unchanged — not even the login request of `get_token`
is sent), and the failure is an `AssertionError`, not the library error. -/
theorem C9_create_element_assert (w : DremioWrapper) (env : Env)
    (element_type name : String) (tr : List Request)
    (h1 : element_type ≠ "folder") (h2 : element_type ≠ "space") :
    w.create_element env element_type name tr = (.error .assertionError, tr) := by
  simp [DremioWrapper.create_element, h1, h2]

/-- Witness for C9 at `element_type = "dataset"`. -/
theorem C9_create_element_assert_witness :
    ("dataset" ≠ "folder" ∧ "dataset" ≠ "space") ∧
      wTest.create_element envEmpty "dataset" "x" [] = (.error .assertionError, []) :=
  ⟨by decide,
   C9_create_element_assert wTest envEmpty "dataset" "x" [] (by decide) (by decide)⟩

/-! ### C7 -/

/-- C7: with a valid element kind and a successful login, `create_element`
returns the body's `id` on HTTP 200 (when the body carries a non-empty id),
returns the sentinel `'already exists'` on HTTP 409, and raises a
`DremioException` carrying the response body on every other status. -/
theorem C7_create_element_http (w : DremioWrapper) (env : Env)
    (element_type name : String) (tr : List Request) (t : String)
    (het : element_type = "folder" ∨ element_type = "space")
    (hst : (env tr.length).status = 200) (htok : (env tr.length).token = some t)
    (hne : t ≠ "") :
    (∀ i, (env (tr.length + 1)).status = 200 → (env (tr.length + 1)).id = some i →
        i ≠ "" →
        w.create_element env element_type name tr =
          (.ok i, tr ++ [.login w.username w.password,
            .catalogPost t (if element_type = "space" then .space name
              else .folder (splitSlash name))])) ∧
    ((env (tr.length + 1)).status = 409 →
        w.create_element env element_type name tr =
          (.ok "already exists", tr ++ [.login w.username w.password,
            .catalogPost t (if element_type = "space" then .space name
              else .folder (splitSlash name))])) ∧
    ((env (tr.length + 1)).status ≠ 200 → (env (tr.length + 1)).status ≠ 409 →
        w.create_element env element_type name tr =
          (.error (.dremio ⟨(env (tr.length + 1)).text⟩),
           tr ++ [.login w.username w.password,
            .catalogPost t (if element_type = "space" then .space name
              else .folder (splitSlash name))])) := by
  have hkey : ∀ k : Response → Act String,
      (Act.bind (w.get_token env) fun token =>
        Act.bind (Act.issue env (.catalogPost token
          (if element_type = "space" then .space name
           else .folder (splitSlash name)))) k) tr =
      k (env (tr.length + 1)) (tr ++ [.login w.username w.password,
        .catalogPost t (if element_type = "space" then .space name
          else .folder (splitSlash name))]) := by
    intro k
    rw [Act.bind_ok (get_token_ok w hst htok hne)]
    simp [Act.bind, Act.issue]
  refine ⟨?_, ?_, ?_⟩
  · intro i h200 hid hi
    simp only [DremioWrapper.create_element, if_pos het, hkey]
    simp [h200, hid, truthy, hi]
  · intro h409
    simp only [DremioWrapper.create_element, if_pos het, hkey]
    simp [h409, truthy]
  · intro h200 h409
    simp only [DremioWrapper.create_element, if_pos het, hkey]
    simp [h200, h409, truthy]

/-- Witness for C7: the 200 branch at a concrete folder creation. -/
theorem C7_create_element_http_witness :
    wTest.create_element envC7 "folder" "a/b" [] =
      (.ok "ID1", [.login "u" "p", .catalogPost "T" (.folder ["a", "b"])]) := by
  have h := (C7_create_element_http wTest envC7 "folder" "a/b" [] "T"
    (Or.inl rfl) (by decide) (by decide) (by decide)).1 "ID1"
    (by decide) (by decide) (by decide)
  exact h.trans (by decide)

/-! ### C8 and C10 -/

/-- C8: `create_documentation` first GETs the wiki to discover a version,
then POSTs the text; the `version` field is present in the POST body iff the
GET was an HTTP 200 whose body carried one.  The statement holds for every
starting trace `tr`, so in particular a second call on the same element
POSTs the version that this second call's own GET returned. -/
theorem C8_create_documentation_version (w : DremioWrapper) (env : Env)
    (element_id text : String) (tr : List Request) (t : String)
    (hst : (env tr.length).status = 200) (htok : (env tr.length).token = some t)
    (hne : t ≠ "") :
    w.create_documentation env element_id text tr =
      ((if (env (tr.length + 2)).status = 200 then .ok "ok"
        else .error (.dremio ⟨(env (tr.length + 2)).text⟩)),
       tr ++ [.login w.username w.password, .wikiGet t element_id,
         .wikiPost t element_id text
           (if (env (tr.length + 1)).status = 200 then (env (tr.length + 1)).version
            else none)]) ∧
    ((if (env (tr.length + 1)).status = 200 then (env (tr.length + 1)).version
        else none).isSome ↔
      ((env (tr.length + 1)).status = 200 ∧ (env (tr.length + 1)).version.isSome)) := by
  constructor
  · simp only [DremioWrapper.create_documentation]
    rw [Act.bind_ok (get_token_ok w hst htok hne)]
    simp only [Act.bind, Act.issue, List.length_append, List.length_singleton]
    split <;> simp [List.append_assoc]
  · split <;> simp_all

/-- Witness for C8: the POST repeats the version `5` found by the GET. -/
theorem C8_create_documentation_version_witness :
    wTest.create_documentation envC8 "e1" "docs" [] =
      (.ok "ok", [.login "u" "p", .wikiGet "T" "e1",
        .wikiPost "T" "e1" "docs" (some "5")]) := by
  have h := (C8_create_documentation_version wTest envC8 "e1" "docs" [] "T"
    (by decide) (by decide) (by decide)).1
  exact h.trans (by decide)

/-- C10: when the wiki GET of `create_documentation` answers with any
non-200 status, nothing is raised at that point: the POST is still issued,
with no `version` field, and the outcome is decided by the POST's status
alone. -/
theorem C10_create_documentation_get_failure (w : DremioWrapper) (env : Env)
    (element_id text : String) (tr : List Request) (t : String)
    (hst : (env tr.length).status = 200) (htok : (env tr.length).token = some t)
    (hne : t ≠ "") (hget : (env (tr.length + 1)).status ≠ 200) :
    w.create_documentation env element_id text tr =
      ((if (env (tr.length + 2)).status = 200 then .ok "ok"
        else .error (.dremio ⟨(env (tr.length + 2)).text⟩)),
       tr ++ [.login w.username w.password, .wikiGet t element_id,
         .wikiPost t element_id text none]) := by
  simp only [DremioWrapper.create_documentation]
  rw [Act.bind_ok (get_token_ok w hst htok hne)]
  simp only [Act.bind, Act.issue, List.length_append, List.length_singleton]
  rw [if_neg hget]
  split <;> simp [List.append_assoc]

/-- Witness for C10: after a 404 on the GET, the POST carries no version
and the call still succeeds. -/
theorem C10_create_documentation_get_failure_witness :
    wTest.create_documentation envC10 "e1" "docs" [] =
      (.ok "ok", [.login "u" "p", .wikiGet "T" "e1",
        .wikiPost "T" "e1" "docs" none]) := by
  have h := C10_create_documentation_get_failure wTest envC10 "e1" "docs" [] "T"
    (by decide) (by decide) (by decide) (by decide)
  exact h.trans (by decide)

/-! ### C1 -/

/-- C1 (amended): `create_or_replace_vds` (called without docs) raises a
`DremioException` — whose message is the terminal state string — iff the
state returned for the submitted job contains `'FAILED'` as a substring; a
job that ends in `CANCELED` does not raise, and the operation returns
normally. -/
theorem C1_failed_substring_raises (w : DremioWrapper) (env : Env)
    (vds_path query : String) (tr tr' : List Request) (s : String)
    (hrun : w.run_sql env
      ("CREATE OR REPLACE VDS " ++ vds_path ++ " AS" ++ " " ++ query) tr =
        (.ok s, tr')) :
    w.create_or_replace_vds env vds_path query none tr =
      (if strContains s "FAILED" then (.error (.dremio ⟨s⟩), tr')
       else (.ok (), tr')) := by
  simp only [DremioWrapper.create_or_replace_vds]
  rw [Act.bind_ok hrun]
  split <;> simp_all [Act.throw, Act.pure, truthy]

/-- Counterexample to C1 as stated: under `envC1` the job ends in the
terminal state `CANCELED`, yet `create_or_replace_vds` raises nothing — it
returns `ok` (the code only raises when `'FAILED'` occurs in the state,
line 258 of `wrapper.py`). -/
theorem C1_counterexample :
    wTest.run_sql envC1 "CREATE OR REPLACE VDS space.view AS SELECT 1" [] =
      (.ok "CANCELED",
       [.login "u" "p", .sqlPost "T1" "CREATE OR REPLACE VDS space.view AS SELECT 1",
        .login "u" "p", .jobGet "T2" "job1"]) ∧
    wTest.create_or_replace_vds envC1 "space.view" "SELECT 1" none [] =
      (.ok (),
       [.login "u" "p", .sqlPost "T1" "CREATE OR REPLACE VDS space.view AS SELECT 1",
        .login "u" "p", .jobGet "T2" "job1"]) := by
  constructor <;> rfl

/-- Witness for the amended C1: at the concrete `envC1` run (state
`CANCELED`, which does not contain `'FAILED'`), the operation returns `ok`. -/
theorem C1_failed_substring_raises_witness :
    wTest.create_or_replace_vds envC1 "space.view" "SELECT 1" none [] =
      (.ok (),
       [.login "u" "p", .sqlPost "T1" "CREATE OR REPLACE VDS space.view AS SELECT 1",
        .login "u" "p", .jobGet "T2" "job1"]) := by
  have h := C1_failed_substring_raises wTest envC1 "space.view" "SELECT 1" []
    ([.login "u" "p", .sqlPost "T1" "CREATE OR REPLACE VDS space.view AS SELECT 1",
      .login "u" "p", .jobGet "T2" "job1"]) "CANCELED" (by rfl)
  exact h.trans (by decide)

/-! ### C2 -/

/-- Under `envRun`, the polling loop ends with `result = some "RUNNING"`
for every non-terminal starting value and any positive fuel. -/
theorem jobPoll_running (fuel : Nat) :
    ∀ (tr : List Request) (lr : Option Response) (r : Option String),
      tr.length ≠ 0 → isTerminal r = false → fuel ≠ 0 →
      ∃ p tr', jobPoll envRun "T" (some "jobX") fuel r lr tr =
        (.ok (some "RUNNING", p), tr') := by
  induction fuel with
  | zero => intro _ _ _ _ _ h0; exact absurd rfl h0
  | succ n ih =>
    intro tr lr r h hr _
    have henv : envRun tr.length = { status := 200, jobState := some "RUNNING" } := by
      unfold envRun; rw [if_neg h]
    simp only [jobPoll, hr, Bool.false_eq_true, if_false, henv]
    rcases Nat.eq_zero_or_pos n with hn | hn
    · subst hn
      exact ⟨some { status := 200, jobState := some "RUNNING" },
        tr ++ [Request.jobGet "T" "jobX"], rfl⟩
    · exact ih (tr ++ [Request.jobGet "T" "jobX"])
        (some { status := 200, jobState := some "RUNNING" }) (some "RUNNING")
        (by simp) (by decide) (Nat.pos_iff_ne_zero.mp hn)

/-- C2 (code behavior at the failing input): when every poll reports the
non-terminal state `RUNNING`, `get_run_status` exhausts its 300 attempts
and then RETURNS the string `"RUNNING"` instead of raising — contradicting
both the claim and the function's own docstring (`:return: 'COMPLETED',
'CANCELED' or 'FAILED'`); lines 138-139 return any truthy `result`. -/
theorem C2_exhaustion_returns_running :
    ∃ tr', wTest.get_run_status envRun (some "jobX") [] = (.ok "RUNNING", tr') := by
  simp only [DremioWrapper.get_run_status]
  rw [Act.bind_ok (@get_token_ok wTest envRun [] "T" rfl rfl (by decide))]
  obtain ⟨p, tr', h⟩ := jobPoll_running 300
    ([] ++ [Request.login wTest.username wTest.password]) none none
    (by simp) (by decide) (by decide)
  refine ⟨tr', ?_⟩
  rw [Act.bind_ok h]
  simp [truthy]

/-! ### C5 -/

/-- Counterexample to C5 as stated: under `envC8`, `create_documentation`
issues three HTTP requests — one login, then a wiki GET and a wiki POST
that BOTH carry the same token `T` obtained by the single `get_token` call
on line 211.  Two HTTP requests within one operation share a token, and no
fresh token is fetched before each individual request. -/
theorem C5_counterexample :
    (wTest.create_documentation envC8 "e1" "docs" []).2.map Request.tokenUsed =
      [none, some "T", some "T"] := by rfl

/-- The job-status polling loop only ever appends `jobGet` requests that
carry the one token it was given, and it never raises (for a non-`None`
job id). -/
theorem jobPoll_shape (env : Env) (t jid : String) (fuel : Nat) :
    ∀ (r : Option String) (lr : Option Response) (tr : List Request),
      ∃ res n, jobPoll env t (some jid) fuel r lr tr =
        (.ok res, tr ++ List.replicate n (Request.jobGet t jid)) := by
  induction fuel with
  | zero => intro r lr tr; exact ⟨(r, lr), 0, by simp [jobPoll]⟩
  | succ k ih =>
    intro r lr tr
    by_cases h : isTerminal r
    · exact ⟨(r, lr), 0, by simp [jobPoll, h]⟩
    · obtain ⟨res, n, hh⟩ := ih
        (if (env tr.length).status = 200 then (env tr.length).jobState else r)
        (some (env tr.length)) (tr ++ [Request.jobGet t jid])
      refine ⟨res, n + 1, ?_⟩
      simp only [jobPoll, h, Bool.false_eq_true, if_false]
      rw [hh]
      simp [List.replicate_succ, List.append_assoc]

/-- C5 (amended): a fresh token is obtained once per primitive operation —
not before each HTTP request — and every HTTP request the operation issues
after its login carries that single token; shown for the two operations the
claim cites, `create_documentation` (GET and POST share the token) and
`get_run_status` (all polls share the token). -/
theorem C5_one_token_per_operation (w : DremioWrapper) (env : Env)
    (element_id text jid : String) (tr : List Request) (t : String)
    (hst : (env tr.length).status = 200) (htok : (env tr.length).token = some t)
    (hne : t ≠ "") :
    (∀ q ∈ (w.create_documentation env element_id text tr).2.drop (tr.length + 1),
        q.tokenUsed = some t) ∧
    (∀ q ∈ (w.get_run_status env (some jid) tr).2.drop (tr.length + 1),
        q.tokenUsed = some t) := by
  have hdrop : ∀ (tr0 : List Request) (a : Request) (rest : List Request),
      (tr0 ++ a :: rest).drop (tr0.length + 1) = rest := by
    intro tr0 a rest
    have h1 : tr0 ++ a :: rest = (tr0 ++ [a]) ++ rest := by simp
    have hlen : (tr0 ++ [a]).length = tr0.length + 1 := by simp
    rw [h1, ← hlen, List.drop_left]
  constructor
  · intro q hq
    have key : (w.create_documentation env element_id text tr).2 =
        tr ++ Request.login w.username w.password ::
          [Request.wikiGet t element_id,
           Request.wikiPost t element_id text
             (if (env (tr ++ [Request.login w.username w.password]).length).status = 200
              then (env (tr ++ [Request.login w.username w.password]).length).version
              else none)] := by
      simp only [DremioWrapper.create_documentation]
      rw [Act.bind_ok (get_token_ok w hst htok hne)]
      simp only [Act.bind, Act.issue]
      split <;> simp
    rw [key, hdrop] at hq
    simp only [List.mem_cons, List.not_mem_nil, or_false] at hq
    rcases hq with hq | hq <;> subst hq <;> simp [Request.tokenUsed]
  · intro q hq
    obtain ⟨res, n, hh⟩ := jobPoll_shape env t jid 300 none none
      (tr ++ [Request.login w.username w.password])
    have key : (w.get_run_status env (some jid) tr).2 =
        tr ++ Request.login w.username w.password ::
          List.replicate n (Request.jobGet t jid) := by
      simp only [DremioWrapper.get_run_status]
      rw [Act.bind_ok (get_token_ok w hst htok hne), Act.bind_ok hh]
      split <;> simp
    rw [key, hdrop] at hq
    simp [List.eq_of_mem_replicate hq, Request.tokenUsed]

/-- Witness for the amended C5: the wiki POST issued by the concrete
`envC8` run of `create_documentation` carries the operation's single token
`T`. -/
theorem C5_one_token_per_operation_witness :
    (Request.wikiPost "T" "e1" "docs" (some "5")).tokenUsed = some "T" :=
  (C5_one_token_per_operation wTest envC8 "e1" "docs" "j" [] "T"
    (by decide) (by decide) (by decide)).1
    (Request.wikiPost "T" "e1" "docs" (some "5")) (by decide)

/-! ### C6 -/

/-- One loop step keeps `result` falsy when the response yields no ID. -/
theorem step_falsy {r : Response} {r0 : Option String}
    (h : yieldsId r = false) (h0 : truthy r0 = false) :
    truthy (if r.status = 200 then r.id else r0) = false := by
  by_cases hs : r.status = 200 <;> simp [yieldsId, hs] at h ⊢ <;> simp_all

/-- Once `result` is truthy the lookup loop stops immediately, whatever
fuel remains. -/
theorem idPoll_done (env : Env) (token path : String) (fuel : Nat) (s : String)
    (hs : s ≠ "") (lr : Option Response) (tr : List Request) :
    idPoll env token path fuel (some s) lr tr = (.ok (some s, lr), tr) := by
  cases fuel <;> simp [idPoll, truthy, hs]

/-- One unfolding step of the lookup loop when `result` is still falsy. -/
theorem idPoll_step (env : Env) (token path : String) (fuel : Nat)
    (r : Option String) (lr : Option Response) (tr : List Request)
    (h : truthy r = false) :
    idPoll env token path (fuel + 1) r lr tr =
      idPoll env token path fuel
        (if (env tr.length).status = 200 then (env tr.length).id else r)
        (some (env tr.length)) (tr ++ [Request.byPathGet token path]) := by
  have hstep : idPoll env token path (fuel + 1) r lr tr =
      if truthy r = true then ((.ok (r, lr), tr) : Except PyError _ × _)
      else idPoll env token path fuel
        (if (env tr.length).status = 200 then (env tr.length).id else r)
        (some (env tr.length)) (tr ++ [Request.byPathGet token path]) := rfl
  rw [hstep, if_neg (by simp [h])]

/-- If the first `m` lookup responses yield no ID and the `(m+1)`-st is a
200 with a truthy id `s`, the loop stops right there: it returns `s`'s
option and has issued exactly `m + 1` lookup requests. -/
theorem idPoll_success (env : Env) (token path : String) :
    ∀ (m fuel : Nat) (r0 : Option String) (lr0 : Option Response)
      (tr : List Request) (s : String),
      truthy r0 = false → m < fuel →
      (∀ j, j < m → yieldsId (env (tr.length + j)) = false) →
      (env (tr.length + m)).status = 200 →
      (env (tr.length + m)).id = some s → s ≠ "" →
      idPoll env token path fuel r0 lr0 tr =
        (.ok (some s, some (env (tr.length + m))),
         tr ++ List.replicate (m + 1) (Request.byPathGet token path)) := by
  intro m
  induction m with
  | zero =>
    intro fuel r0 lr0 tr s h0 hlt _ hst hid hs
    obtain ⟨f, rfl⟩ := Nat.exists_eq_succ_of_ne_zero (Nat.pos_iff_ne_zero.mp hlt)
    rw [Nat.add_zero] at hst hid ⊢
    rw [idPoll_step env token path f r0 lr0 tr h0]
    have hcond : (if (env tr.length).status = 200 then (env tr.length).id else r0) =
        some s := by rw [if_pos hst, hid]
    rw [hcond, idPoll_done env token path f s hs]
    simp
  | succ m ih =>
    intro fuel r0 lr0 tr s h0 hlt hj hst hid hs
    obtain ⟨f, rfl⟩ := Nat.exists_eq_succ_of_ne_zero
      (Nat.pos_iff_ne_zero.mp (Nat.lt_of_le_of_lt (Nat.zero_le _) hlt))
    rw [idPoll_step env token path f r0 lr0 tr h0]
    have hy0 : yieldsId (env (tr.length + 0)) = false := hj 0 (Nat.succ_pos m)
    rw [Nat.add_zero] at hy0
    have hpos : ∀ j, tr.length + 1 + j = tr.length + (j + 1) := by omega
    have hrec := ih f (if (env tr.length).status = 200 then (env tr.length).id else r0)
      (some (env tr.length)) (tr ++ [Request.byPathGet token path]) s
      (step_falsy hy0 h0) (Nat.lt_of_succ_lt_succ hlt)
      (by
        intro j hjm
        simp only [List.length_append, List.length_singleton, hpos]
        exact hj (j + 1) (Nat.succ_lt_succ hjm))
      (by simp only [List.length_append, List.length_singleton, hpos]; exact hst)
      (by simp only [List.length_append, List.length_singleton, hpos]; exact hid) hs
    rw [hrec]
    simp only [List.length_append, List.length_singleton, hpos]
    simp [List.replicate_succ, List.append_assoc]

/-- If none of the `n + 1` lookup responses yields an ID, the loop runs out
of fuel with a still-falsy `result`, having issued exactly `n + 1` lookup
requests, and the last response seen is the `(n+1)`-st. -/
theorem idPoll_failure (env : Env) (token path : String) :
    ∀ (n : Nat) (r0 : Option String) (lr0 : Option Response) (tr : List Request),
      truthy r0 = false →
      (∀ j, j < n + 1 → yieldsId (env (tr.length + j)) = false) →
      ∃ rE, truthy rE = false ∧
        idPoll env token path (n + 1) r0 lr0 tr =
          (.ok (rE, some (env (tr.length + n))),
           tr ++ List.replicate (n + 1) (Request.byPathGet token path)) := by
  intro n
  induction n with
  | zero =>
    intro r0 lr0 tr h0 hj
    have hy0 : yieldsId (env (tr.length + 0)) = false := hj 0 Nat.one_pos
    rw [Nat.add_zero] at hy0
    refine ⟨if (env tr.length).status = 200 then (env tr.length).id else r0,
      step_falsy hy0 h0, ?_⟩
    simp [idPoll, h0]
  | succ n ih =>
    intro r0 lr0 tr h0 hj
    have hy0 : yieldsId (env (tr.length + 0)) = false := hj 0 (Nat.succ_pos _)
    rw [Nat.add_zero] at hy0
    have hpos : ∀ j, tr.length + 1 + j = tr.length + (j + 1) := by omega
    obtain ⟨rE, hrE, hh⟩ := ih
      (if (env tr.length).status = 200 then (env tr.length).id else r0)
      (some (env tr.length)) (tr ++ [Request.byPathGet token path])
      (step_falsy hy0 h0)
      (by
        intro j hjn
        simp only [List.length_append, List.length_singleton, hpos]
        exact hj (j + 1) (Nat.succ_lt_succ hjn))
    refine ⟨rE, hrE, ?_⟩
    rw [idPoll_step env token path (n + 1) r0 lr0 tr h0, hh]
    simp only [List.length_append, List.length_singleton, hpos]
    simp [List.replicate_succ, List.append_assoc]

/-- C6: `get_element_id` normalizes the path (dots to slashes, quotes
stripped — visible in every lookup request it issues), polls the
lookup-by-path endpoint at most 10 times, returns the ID of the first
response yielding one after exactly `m + 1` lookup requests (attempt
`m + 1 ≤ 10`, 0-based `m`), and when no attempt yields an ID it raises a
`DremioException` carrying the last (10th) response's body. -/
theorem C6_get_element_id (w : DremioWrapper) (env : Env) (path : String)
    (tr : List Request) (t : String)
    (hst : (env tr.length).status = 200) (htok : (env tr.length).token = some t)
    (hne : t ≠ "") :
    (∀ m s, m < 10 →
      (∀ j, j < m → yieldsId (env (tr.length + 1 + j)) = false) →
      (env (tr.length + 1 + m)).status = 200 →
      (env (tr.length + 1 + m)).id = some s → s ≠ "" →
      w.get_element_id env path tr =
        (.ok s, tr ++ Request.login w.username w.password ::
          List.replicate (m + 1) (Request.byPathGet t (normalize path)))) ∧
    ((∀ j, j < 10 → yieldsId (env (tr.length + 1 + j)) = false) →
      w.get_element_id env path tr =
        (.error (.dremio ⟨(env (tr.length + 10)).text⟩),
         tr ++ Request.login w.username w.password ::
           List.replicate 10 (Request.byPathGet t (normalize path)))) := by
  have hlen : (tr ++ [Request.login w.username w.password]).length =
      tr.length + 1 := by simp
  constructor
  · intro m s hm hj hst2 hid hs
    simp only [DremioWrapper.get_element_id]
    rw [Act.bind_ok (get_token_ok w hst htok hne)]
    have hp := idPoll_success env t (normalize path) m 10 none none
      (tr ++ [Request.login w.username w.password]) s rfl hm
      (by intro j hjm; rw [hlen]; exact hj j hjm)
      (by rw [hlen]; exact hst2) (by rw [hlen]; exact hid) hs
    rw [Act.bind_ok hp]
    simp [truthy, hs, List.append_assoc]
  · intro hj
    simp only [DremioWrapper.get_element_id]
    rw [Act.bind_ok (get_token_ok w hst htok hne)]
    obtain ⟨rE, hrE, hp⟩ := idPoll_failure env t (normalize path) 9 none none
      (tr ++ [Request.login w.username w.password]) rfl
      (by intro j hjm; rw [hlen]; exact hj j hjm)
    rw [Act.bind_ok hp]
    have h10 : tr.length + 1 + 9 = tr.length + 10 := by omega
    rw [hlen, h10] at *
    simp [hrE, List.append_assoc]

/-- Witness for C6: under `envC6` the ID arrives on the 5th attempt and
`get_element_id` succeeds after exactly 5 lookup requests, all against the
normalized path. -/
theorem C6_get_element_id_witness :
    wTest.get_element_id envC6 "source.folder.table" [] =
      (.ok "EID", Request.login "u" "p" ::
        List.replicate 5 (Request.byPathGet "T" "source/folder/table")) := by
  have h := (C6_get_element_id wTest envC6 "source.folder.table" [] "T"
    (by decide) (by decide) (by decide)).1 4 "EID" (by decide)
    (by decide) (by decide) (by decide) (by decide)
  exact h.trans (by decide)

/-! ### C3 -/

/-- `get_token` either returns a token or raises the library error; either
way it appends exactly the login request. -/
theorem get_token_cases (w : DremioWrapper) (env : Env) (tr : List Request) :
    (∃ t, w.get_token env tr = (.ok t, tr ++ [.login w.username w.password])) ∨
    (∃ m, w.get_token env tr =
      (.error (.dremio m), tr ++ [.login w.username w.password])) := by
  simp only [DremioWrapper.get_token, Act.bind, Act.issue]
  split <;> split <;> first
    | exact .inl ⟨_, rfl⟩
    | exact .inr ⟨_, rfl⟩

/-- `delete_element` either succeeds or raises the library error — never
any other exception kind. -/
theorem delete_element_cases (w : DremioWrapper) (env : Env) (eid : String)
    (tr : List Request) :
    (∃ v tr', w.delete_element env eid tr = (.ok v, tr')) ∨
    (∃ m tr', w.delete_element env eid tr = (.error (.dremio m), tr')) := by
  rcases get_token_cases w env tr with ⟨t, ht⟩ | ⟨m, hm⟩
  · simp only [DremioWrapper.delete_element]
    rw [Act.bind_ok ht]
    simp only [Act.bind, Act.issue]
    split
    · exact .inl ⟨_, _, rfl⟩
    · exact .inr ⟨_, _, rfl⟩
  · simp only [DremioWrapper.delete_element]
    rw [Act.bind_err hm]
    exact .inr ⟨m, _, rfl⟩

/-- C3: `refresh_parquet_pds` normalizes the path and looks it up; if the
looked-up ID contains the normalized path as a substring, that same ID is
reused with no delete issued (the trace after the lookup holds only the
refresh login and the refresh POST); if it does not, the element is deleted
— any `DremioException` of the delete ignored — and a fresh ID is looked
up; the reused or fresh ID is the one in the refresh payload (and URL), and
on an HTTP 200 the call returns the `id` field of the refresh response. -/
theorem C3_refresh_parquet_pds (w : DremioWrapper) (env : Env) (p : String)
    (tr tr1 : List Request) (id0 : String)
    (h1 : w.get_element_id env (normalize p) tr = (.ok id0, tr1)) :
    (strContains id0 (normalize p) = true →
      ∀ t tr2, w.get_token env tr1 = (.ok t, tr2) →
      (env (tr1.length + 1)).status = 200 →
      w.refresh_parquet_pds env p tr =
        (.ok (env (tr1.length + 1)).id,
         tr1 ++ [.login w.username w.password,
           .refreshPost t id0 ⟨id0, splitSlash (normalize p)⟩])) ∧
    (strContains id0 (normalize p) = false →
      ∀ rd trd, w.delete_element env id0 tr1 = (rd, trd) →
      ∀ id1 trB, w.get_element_id env (normalize p) trd = (.ok id1, trB) →
      ∀ t tr2, w.get_token env trB = (.ok t, tr2) →
      (env (trB.length + 1)).status = 200 →
      w.refresh_parquet_pds env p tr =
        (.ok (env (trB.length + 1)).id,
         trB ++ [.login w.username w.password,
           .refreshPost t id1 ⟨id1, splitSlash (normalize p)⟩])) := by
  constructor
  · intro hA t tr2 htok hst
    have htr2 : tr2 = tr1 ++ [.login w.username w.password] := by
      have h := get_token_trace w env tr1
      rw [htok] at h
      exact h
    subst htr2
    simp only [DremioWrapper.refresh_parquet_pds]
    rw [Act.bind_ok h1, if_neg (by simp [hA])]
    rw [Act.bind_ok (show (Act.pure id0 : Act String) tr1 = (.ok id0, tr1) from rfl)]
    rw [Act.bind_ok htok]
    simp only [Act.bind, Act.issue, List.length_append, List.length_singleton]
    rw [if_pos hst]
    simp [List.append_assoc]
  · intro hB rd trd hdel id1 trB h2 t tr2 htok hst
    have htr2 : tr2 = trB ++ [.login w.username w.password] := by
      have h := get_token_trace w env trB
      rw [htok] at h
      exact h
    subst htr2
    have hcatch : (Act.catchDremio
        (Act.bind (w.delete_element env id0) fun _ => Act.pure ())
        (Act.pure ())) tr1 = (.ok (), trd) := by
      rcases delete_element_cases w env id0 tr1 with ⟨v, tr', hca⟩ | ⟨m, tr', hca⟩ <;>
        · rw [hdel] at hca
          injection hca with h3 h4
          simp [Act.catchDremio, Act.bind, hdel, h3, Act.pure]
    have hX : (Act.bind (Act.catchDremio
        (Act.bind (w.delete_element env id0) fun _ => Act.pure ())
        (Act.pure ())) fun _ => w.get_element_id env (normalize p)) tr1 =
        (.ok id1, trB) := by
      rw [Act.bind_ok hcatch]
      exact h2
    simp only [DremioWrapper.refresh_parquet_pds]
    rw [Act.bind_ok h1, if_pos (by simp [hB])]
    rw [Act.bind_ok hX]
    rw [Act.bind_ok htok]
    simp only [Act.bind, Act.issue, List.length_append, List.length_singleton]
    rw [if_pos hst]
    simp [List.append_assoc]

/-- Witness for C3: with a containing ID, no delete request appears in the
trace, the same ID sits in the refresh payload, and the response's id is
returned. -/
theorem C3_refresh_parquet_pds_witness :
    wTest.refresh_parquet_pds envC3 "source.folder.table" [] =
      (.ok (some "NEWID"),
       [.login "u" "p", .byPathGet "T1" "source/folder/table", .login "u" "p",
        .refreshPost "T2" "dremio:/source/folder/table"
          ⟨"dremio:/source/folder/table", ["source", "folder", "table"]⟩]) := by
  have h := (C3_refresh_parquet_pds wTest envC3 "source.folder.table" []
    [.login "u" "p", .byPathGet "T1" "source/folder/table"]
    "dremio:/source/folder/table" (by decide)).1 (by decide) "T2"
    ([.login "u" "p", .byPathGet "T1" "source/folder/table"] ++ [.login "u" "p"])
    (by decide) (by decide)
  exact h.trans (by decide)

/-! ### C4 -/

/-- The lookup polling loop never raises. -/
theorem idPoll_no_raise (env : Env) (token path : String) :
    ∀ (fuel : Nat) (r : Option String) (lr : Option Response) (tr : List Request)
      (e : PyError) (tr' : List Request),
      idPoll env token path fuel r lr tr = (.error e, tr') → False := by
  intro fuel
  induction fuel with
  | zero => intro r lr tr e tr' h; simp [idPoll] at h
  | succ f ih =>
    intro r lr tr e tr' h
    by_cases hr : truthy r = true
    · rw [show idPoll env token path (f + 1) r lr tr = (.ok (r, lr), tr) from by
        simp [idPoll, hr]] at h
      simp at h
    · rw [idPoll_step env token path f r lr tr (by simpa using hr)] at h
      exact ih _ _ _ _ _ h

/-- The job polling loop raises only the `TypeError` of `None`
concatenation (line 131 with `id = None`). -/
theorem jobPoll_err (env : Env) (t : String) (jid : Option String) :
    ∀ (fuel : Nat) (r : Option String) (lr : Option Response) (tr : List Request)
      (e : PyError) (tr' : List Request),
      jobPoll env t jid fuel r lr tr = (.error e, tr') → e = .typeError := by
  intro fuel
  induction fuel with
  | zero => intro r lr tr e tr' h; simp [jobPoll] at h
  | succ f ih =>
    intro r lr tr e tr' h
    simp only [jobPoll] at h
    split at h
    · simp at h
    · cases jid with
      | none =>
        simp only [Prod.mk.injEq, Except.error.injEq] at h
        exact h.1.symm
      | some j => exact ih _ _ _ _ _ h

/-- Any exception out of `get_token` is the library error. -/
theorem get_token_err_dremio (w : DremioWrapper) (env : Env)
    (tr : List Request) (e : PyError) (tr' : List Request)
    (h : w.get_token env tr = (.error e, tr')) : e.isDremio = true := by
  rcases get_token_cases w env tr with ⟨t, ht⟩ | ⟨m, hm⟩
  · rw [ht] at h; simp at h
  · rw [hm] at h
    simp only [Prod.mk.injEq, Except.error.injEq] at h
    rw [← h.1]; rfl

/-- Any exception out of `delete_element` is the library error. -/
theorem delete_element_err_dremio (w : DremioWrapper) (env : Env) (eid : String)
    (tr : List Request) (e : PyError) (tr' : List Request)
    (h : w.delete_element env eid tr = (.error e, tr')) : e.isDremio = true := by
  rcases delete_element_cases w env eid tr with ⟨v, trd, hd⟩ | ⟨m, trd, hd⟩
  · rw [hd] at h; simp at h
  · rw [hd] at h
    simp only [Prod.mk.injEq, Except.error.injEq] at h
    rw [← h.1]; rfl

/-- Any exception out of `get_element_id` is the library error. -/
theorem get_element_id_err_dremio (w : DremioWrapper) (env : Env) (p : String)
    (tr : List Request) (e : PyError) (tr' : List Request)
    (h : w.get_element_id env p tr = (.error e, tr')) : e.isDremio = true := by
  simp only [DremioWrapper.get_element_id] at h
  rcases get_token_cases w env tr with ⟨t, ht⟩ | ⟨m, hm⟩
  · rw [Act.bind_ok ht] at h
    rcases hip : idPoll env t (normalize p) 10 none none
      (tr ++ [Request.login w.username w.password]) with ⟨res, trp⟩
    cases res with
    | ok v =>
      rw [Act.bind_ok hip] at h
      split at h
      · simp at h
      · simp only [Prod.mk.injEq, Except.error.injEq] at h
        rw [← h.1]; rfl
    | error e0 =>
      exact (idPoll_no_raise env t (normalize p) 10 none none _ e0 trp hip).elim
  · rw [Act.bind_err hm] at h
    simp only [Prod.mk.injEq, Except.error.injEq] at h
    rw [← h.1]; rfl

/-- Any exception out of `get_run_status` is the library error or — only
when the job id passed in is `None` — the `TypeError`. -/
theorem get_run_status_err_kinds (w : DremioWrapper) (env : Env)
    (id : Option String) (tr : List Request) (e : PyError) (tr' : List Request)
    (h : w.get_run_status env id tr = (.error e, tr')) :
    e.isDremio = true ∨ e = .typeError := by
  simp only [DremioWrapper.get_run_status] at h
  rcases get_token_cases w env tr with ⟨t, ht⟩ | ⟨m, hm⟩
  · rw [Act.bind_ok ht] at h
    rcases hjp : jobPoll env t id 300 none none
      (tr ++ [Request.login w.username w.password]) with ⟨res, trp⟩
    cases res with
    | ok v =>
      rw [Act.bind_ok hjp] at h
      split at h
      · simp at h
      · simp only [Prod.mk.injEq, Except.error.injEq] at h
        exact .inl (by rw [← h.1]; rfl)
    | error e0 =>
      rw [Act.bind_err hjp] at h
      simp only [Prod.mk.injEq, Except.error.injEq] at h
      exact .inr (by rw [← h.1]; exact jobPoll_err env t id 300 none none _ e0 trp hjp)
  · rw [Act.bind_err hm] at h
    simp only [Prod.mk.injEq, Except.error.injEq] at h
    exact .inl (by rw [← h.1]; rfl)

/-- With a real (non-`None`) job id, any exception out of `get_run_status`
is the library error. -/
theorem get_run_status_some_err_dremio (w : DremioWrapper) (env : Env)
    (jid : String) (tr : List Request) (e : PyError) (tr' : List Request)
    (h : w.get_run_status env (some jid) tr = (.error e, tr')) :
    e.isDremio = true := by
  simp only [DremioWrapper.get_run_status] at h
  rcases get_token_cases w env tr with ⟨t, ht⟩ | ⟨m, hm⟩
  · rw [Act.bind_ok ht] at h
    obtain ⟨res, n, hjp⟩ := jobPoll_shape env t jid 300 none none
      (tr ++ [Request.login w.username w.password])
    rw [Act.bind_ok hjp] at h
    split at h
    · simp at h
    · simp only [Prod.mk.injEq, Except.error.injEq] at h
      rw [← h.1]; rfl
  · rw [Act.bind_err hm] at h
    simp only [Prod.mk.injEq, Except.error.injEq] at h
    rw [← h.1]; rfl

/-- Any exception out of `create_documentation` is the library error. -/
theorem create_documentation_err_dremio (w : DremioWrapper) (env : Env)
    (eid txt : String) (tr : List Request) (e : PyError) (tr' : List Request)
    (h : w.create_documentation env eid txt tr = (.error e, tr')) :
    e.isDremio = true := by
  simp only [DremioWrapper.create_documentation] at h
  rcases get_token_cases w env tr with ⟨t, ht⟩ | ⟨m, hm⟩
  · rw [Act.bind_ok ht] at h
    simp only [Act.bind, Act.issue] at h
    split at h
    · simp at h
    · simp only [Prod.mk.injEq, Except.error.injEq] at h
      rw [← h.1]; rfl
  · rw [Act.bind_err hm] at h
    simp only [Prod.mk.injEq, Except.error.injEq] at h
    rw [← h.1]; rfl

/-- Any exception out of `create_element` is the library error or — only
for an element type outside `{'folder', 'space'}` — the assertion failure. -/
theorem create_element_err_kinds (w : DremioWrapper) (env : Env)
    (et n : String) (tr : List Request) (e : PyError) (tr' : List Request)
    (h : w.create_element env et n tr = (.error e, tr')) :
    e.isDremio = true ∨ e = .assertionError := by
  by_cases het : et = "folder" ∨ et = "space"
  · simp only [DremioWrapper.create_element, if_pos het] at h
    rcases get_token_cases w env tr with ⟨t, ht⟩ | ⟨m, hm⟩
    · rw [Act.bind_ok ht] at h
      simp only [Act.bind, Act.issue] at h
      repeat' split at h
      all_goals first
        | (exact .inl (by
            simp only [Prod.mk.injEq, Except.error.injEq] at h
            rw [← h.1]; rfl))
        | simp at h
    · rw [Act.bind_err hm] at h
      simp only [Prod.mk.injEq, Except.error.injEq] at h
      exact .inl (by rw [← h.1]; rfl)
  · simp only [DremioWrapper.create_element, if_neg het] at h
    simp only [Prod.mk.injEq, Except.error.injEq] at h
    exact .inr h.1.symm

/-- Any exception out of `run_sql` is the library error or — only when the
SQL submission answers 200 without a job id — the `TypeError`. -/
theorem run_sql_err_kinds (w : DremioWrapper) (env : Env) (cmd : String)
    (tr : List Request) (e : PyError) (tr' : List Request)
    (h : w.run_sql env cmd tr = (.error e, tr')) :
    e.isDremio = true ∨ e = .typeError := by
  simp only [DremioWrapper.run_sql] at h
  rcases get_token_cases w env tr with ⟨t, ht⟩ | ⟨m, hm⟩
  · rw [Act.bind_ok ht] at h
    simp only [Act.bind, Act.issue] at h
    by_cases hc : (env (tr ++ [Request.login w.username w.password]).length).status = 200
    · rw [if_pos hc] at h
      rcases hrs : w.get_run_status env
        (env (tr ++ [Request.login w.username w.password]).length).id
        (tr ++ [Request.login w.username w.password] ++
          [Request.sqlPost t cmd]) with ⟨res, trr⟩
      cases res with
      | ok v =>
        rw [Act.bind_ok hrs] at h
        repeat' split at h
        all_goals first
          | (exact .inl (by
              simp only [Prod.mk.injEq, Except.error.injEq] at h
              rw [← h.1]; rfl))
          | simp at h
      | error e0 =>
        rw [Act.bind_err hrs] at h
        simp only [Prod.mk.injEq, Except.error.injEq] at h
        rw [← h.1] at *
        exact get_run_status_err_kinds w env _ _ e0 trr hrs
    · rw [if_neg hc] at h
      simp only [Act.throw, Prod.mk.injEq, Except.error.injEq] at h
      exact .inl (by rw [← h.1]; rfl)
  · rw [Act.bind_err hm] at h
    simp only [Prod.mk.injEq, Except.error.injEq] at h
    exact .inl (by rw [← h.1]; rfl)

/-- Any exception out of `create_or_replace_vds` is the library error or —
through `run_sql`, when the submission answers 200 without a job id — the
`TypeError`. -/
theorem create_or_replace_vds_err_kinds (w : DremioWrapper) (env : Env)
    (vp q : String) (docs : Option String) (tr : List Request) (e : PyError)
    (tr' : List Request)
    (h : w.create_or_replace_vds env vp q docs tr = (.error e, tr')) :
    e.isDremio = true ∨ e = .typeError := by
  simp only [DremioWrapper.create_or_replace_vds] at h
  rcases hrs : w.run_sql env
    ("CREATE OR REPLACE VDS " ++ vp ++ " AS" ++ " " ++ q) tr with ⟨res, trr⟩
  cases res with
  | error e0 =>
    rw [Act.bind_err hrs] at h
    simp only [Prod.mk.injEq, Except.error.injEq] at h
    rw [← h.1]
    exact run_sql_err_kinds w env _ tr e0 trr hrs
  | ok v =>
    rw [Act.bind_ok hrs] at h
    by_cases h1 : strContains v "FAILED" = true
    · rw [if_pos h1] at h
      simp only [Act.throw, Prod.mk.injEq, Except.error.injEq] at h
      exact .inl (by rw [← h.1]; rfl)
    · rw [if_neg h1] at h
      by_cases h2 : truthy docs = true
      · rw [if_pos h2] at h
        rcases heid : w.get_element_id env vp trr with ⟨res2, tre⟩
        cases res2 with
        | error e0 =>
          rw [Act.bind_err heid] at h
          simp only [Prod.mk.injEq, Except.error.injEq] at h
          exact .inl (by
            rw [← h.1]
            exact get_element_id_err_dremio w env vp trr e0 tre heid)
        | ok eid =>
          rw [Act.bind_ok heid] at h
          rcases hdoc : w.create_documentation env eid (docs.getD "") tre
            with ⟨res3, trd⟩
          cases res3 with
          | error e0 =>
            rw [Act.bind_err hdoc] at h
            simp only [Prod.mk.injEq, Except.error.injEq] at h
            exact .inl (by
              rw [← h.1]
              exact create_documentation_err_dremio w env eid (docs.getD "")
                tre e0 trd hdoc)
          | ok u =>
            rw [Act.bind_ok hdoc] at h
            simp [Act.pure] at h
      · rw [if_neg h2] at h
        simp [Act.pure] at h

/-- The tail of `refresh_parquet_pds` (token, refresh POST, status check)
raises only the library error. -/
theorem refresh_tail_err (w : DremioWrapper) (env : Env) (np eid : String)
    (tr2 : List Request) (e : PyError) (tr' : List Request)
    (h : (Act.bind (w.get_token env) fun token =>
        Act.bind (Act.issue env (.refreshPost token eid ⟨eid, splitSlash np⟩))
          fun response => fun tr =>
            if response.status = 200 then (.ok response.id, tr)
            else (.error (.dremio ⟨response.text⟩), tr)) tr2 = (.error e, tr')) :
    e.isDremio = true := by
  rcases get_token_cases w env tr2 with ⟨t, ht⟩ | ⟨m, hm⟩
  · rw [Act.bind_ok ht] at h
    simp only [Act.bind, Act.issue] at h
    repeat' split at h
    all_goals first
      | (simp only [Prod.mk.injEq, Except.error.injEq] at h
         rw [← h.1]; rfl)
      | simp at h
  · rw [Act.bind_err hm] at h
    simp only [Prod.mk.injEq, Except.error.injEq] at h
    rw [← h.1]; rfl

/-- Any exception out of `refresh_parquet_pds` is the library error. -/
theorem refresh_parquet_pds_err_dremio (w : DremioWrapper) (env : Env)
    (pth : String) (tr : List Request) (e : PyError) (tr' : List Request)
    (h : w.refresh_parquet_pds env pth tr = (.error e, tr')) :
    e.isDremio = true := by
  simp only [DremioWrapper.refresh_parquet_pds] at h
  rcases hgid : w.get_element_id env (normalize pth) tr with ⟨res, tr1⟩
  cases res with
  | error e0 =>
    rw [Act.bind_err hgid] at h
    simp only [Prod.mk.injEq, Except.error.injEq] at h
    rw [← h.1]
    exact get_element_id_err_dremio w env (normalize pth) tr e0 tr1 hgid
  | ok id0 =>
    rw [Act.bind_ok hgid] at h
    by_cases hc : strContains id0 (normalize pth) = true
    · rw [if_neg (by simp [hc])] at h
      rw [Act.bind_ok
        (show (Act.pure id0 : Act String) tr1 = (.ok id0, tr1) from rfl)] at h
      exact refresh_tail_err w env (normalize pth) id0 tr1 e tr' h
    · rw [if_pos (by simp [hc])] at h
      have hcatch : ∃ trd, (Act.catchDremio
          (Act.bind (w.delete_element env id0) fun _ => Act.pure ())
          (Act.pure ())) tr1 = (.ok (), trd) := by
        rcases delete_element_cases w env id0 tr1 with ⟨v, trd, hdel⟩ | ⟨m, trd, hdel⟩ <;>
          exact ⟨trd, by simp [Act.catchDremio, Act.bind, hdel, Act.pure]⟩
      obtain ⟨trd, hcatch⟩ := hcatch
      rcases hgid2 : w.get_element_id env (normalize pth) trd with ⟨res2, trB⟩
      cases res2 with
      | error e0 =>
        have hx : (Act.bind (Act.catchDremio
            (Act.bind (w.delete_element env id0) fun _ => Act.pure ())
            (Act.pure ())) fun _ => w.get_element_id env (normalize pth)) tr1 =
            (.error e0, trB) := by
          rw [Act.bind_ok hcatch]; exact hgid2
        rw [Act.bind_err hx] at h
        simp only [Prod.mk.injEq, Except.error.injEq] at h
        rw [← h.1]
        exact get_element_id_err_dremio w env (normalize pth) trd e0 trB hgid2
      | ok id1 =>
        have hx : (Act.bind (Act.catchDremio
            (Act.bind (w.delete_element env id0) fun _ => Act.pure ())
            (Act.pure ())) fun _ => w.get_element_id env (normalize pth)) tr1 =
            (.ok id1, trB) := by
          rw [Act.bind_ok hcatch]; exact hgid2
        rw [Act.bind_ok hx] at h
        exact refresh_tail_err w env (normalize pth) id1 trB e tr' h

/-- C4 (amended): every failure path of every public operation raises the
single library error kind, with exactly two exceptions forced by the code:
`create_element`'s argument-validation `assert` (line 58) raises an
`AssertionError`, and `run_sql` (hence `create_or_replace_vds`) raises a
`TypeError` when the SQL submission answers HTTP 200 without a job id
(`None` is then concatenated into the job-status URL on line 131). -/
theorem C4_single_error_kind (w : DremioWrapper) (env : Env) :
    (∀ tr e tr', w.get_token env tr = (.error e, tr') → e.isDremio = true) ∧
    (∀ eid tr e tr', w.delete_element env eid tr = (.error e, tr') →
        e.isDremio = true) ∧
    (∀ p tr e tr', w.get_element_id env p tr = (.error e, tr') →
        e.isDremio = true) ∧
    (∀ jid tr e tr', w.get_run_status env (some jid) tr = (.error e, tr') →
        e.isDremio = true) ∧
    (∀ eid txt tr e tr', w.create_documentation env eid txt tr = (.error e, tr') →
        e.isDremio = true) ∧
    (∀ pth tr e tr', w.refresh_parquet_pds env pth tr = (.error e, tr') →
        e.isDremio = true) ∧
    (∀ et n tr e tr', w.create_element env et n tr = (.error e, tr') →
        e.isDremio = true ∨ e = .assertionError) ∧
    (∀ cmd tr e tr', w.run_sql env cmd tr = (.error e, tr') →
        e.isDremio = true ∨ e = .typeError) ∧
    (∀ vp q docs tr e tr', w.create_or_replace_vds env vp q docs tr = (.error e, tr') →
        e.isDremio = true ∨ e = .typeError) :=
  ⟨fun tr e tr' h => get_token_err_dremio w env tr e tr' h,
   fun eid tr e tr' h => delete_element_err_dremio w env eid tr e tr' h,
   fun p tr e tr' h => get_element_id_err_dremio w env p tr e tr' h,
   fun jid tr e tr' h => get_run_status_some_err_dremio w env jid tr e tr' h,
   fun eid txt tr e tr' h => create_documentation_err_dremio w env eid txt tr e tr' h,
   fun pth tr e tr' h => refresh_parquet_pds_err_dremio w env pth tr e tr' h,
   fun et n tr e tr' h => create_element_err_kinds w env et n tr e tr' h,
   fun cmd tr e tr' h => run_sql_err_kinds w env cmd tr e tr' h,
   fun vp q docs tr e tr' h => create_or_replace_vds_err_kinds w env vp q docs tr e tr' h⟩

/-- Counterexample to C4 as stated: `create_element` with the invalid
element type `'dataset'` fails, and the exception raised is the
`AssertionError` of line 58 — not the library error kind. -/
theorem C4_counterexample :
    wTest.create_element envEmpty "dataset" "y" [] = (.error .assertionError, []) ∧
    PyError.assertionError.isDremio = false :=
  ⟨rfl, rfl⟩

/-- Witness for the amended C4: a concrete failing login raises an error
of the library kind. -/
theorem C4_single_error_kind_witness :
    (PyError.dremio ⟨"boom"⟩).isDremio = true :=
  (C4_single_error_kind wTest envFail).1 [] (.dremio ⟨"boom"⟩)
    [.login "u" "p"] (by rfl)

end Dremio
